import Mathlib

/-!
Verification development for the Hilo home-energy integration client
(`custom_components/hilo/api.py`).  The Python source is shallowly embedded:
stateful code becomes explicit state passing, HTTP traffic is abstracted by
oracles (one outcome per attempt / one token per refresh execution), and
Python exceptions become explicit result constructors.
-/

namespace Hilo

/-! ## Transport / auth layer (`Hilo.async_call`, `Hilo._request`,
`Hilo._refresh_token`, the `Throttle` wrapper on `refresh_token`). -/

/-- State of the token machinery (`Hilo._access_token`,
`Hilo._token_expiration`) together with the bookkeeping of the
`Throttle(timedelta(seconds=120))` wrapper installed on `refresh_token` in
`__init__`, plus two instrumentation counters: `fetch_count` counts executed
`get_access_token` calls and `forced_invocations` counts invocations of
`refresh_token(True)`. -/
structure AuthState where
  access_token : Option String
  token_expiration : Option ℤ
  throttle_last : Option ℤ
  fetch_count : ℕ
  forced_invocations : ℕ
deriving Repr, DecidableEq

/-- Body of `Hilo._refresh_token` (api.py lines 188-201), run when the
throttle lets the call through.  `fetchO` is the oracle standing for
`get_access_token` (indexed by how many fetches happened so far); it returns
the token or `none` when the oauth response carries no `access_token`.
The throttle's last-run stamp is updated because the wrapped method executed. -/
def refresh_run (nowc : ℤ) (fetchO : ℕ → Option String) (force : Bool)
    (a : AuthState) : AuthState × Option Bool :=
  let a1 := { a with throttle_last := some nowc }
  let expiration := a1.token_expiration.getD (nowc - 200)
  if force = true ∨ a1.access_token = none ∨ expiration < nowc then
    let tok := fetchO a1.fetch_count
    let a2 := { a1 with token_expiration := some (nowc + 3000),
                        access_token := tok,
                        fetch_count := a1.fetch_count + 1 }
    (a2, some tok.isSome)
  else (a1, some true)

/-- `Hilo.refresh_token`: the `Throttle(timedelta(seconds=120))` wrapper
around `_refresh_token`.  Within 120 seconds of the last execution the call
collapses to a no-op returning `none` (Python `None`); otherwise
`_refresh_token` runs.  A forced invocation (`refresh_token(True)`) is
counted even when throttled. -/
def refresh_token (nowc : ℤ) (fetchO : ℕ → Option String) (force : Bool)
    (a : AuthState) : AuthState × Option Bool :=
  let a0 := cond force { a with forced_invocations := a.forced_invocations + 1 } a
  match a0.throttle_last with
  | some t => if nowc - t ≤ 120 then (a0, none) else refresh_run nowc fetchO force a0
  | none => refresh_run nowc fetchO force a0

/-- Classification of what one HTTP attempt inside `async_call` does, i.e.
the abstraction of `getattr(session, method)(url, ...)` plus the body parse:
* `ok body` — status in `allowed_status` and `resp.json()` succeeds;
* `okNonJson t` — status allowed but `resp.json()` raises
  `ContentTypeError`, so `resp.text` is returned raw (line 150);
* `badJson` — status allowed but `resp.json()` raises some other
  exception (malformed JSON body), retried (line 153);
* `badStatus` — status not 401 and not in `allowed_status`, retried
  (line 140);
* `transport` — `asyncio.TimeoutError` / `aiohttp.ClientError`, retried
  (line 144);
* `unauth` — HTTP 401 (line 128). -/
inductive AttemptOutcome where
  | ok (body : String)
  | okNonJson (text : String)
  | badJson
  | badStatus
  | transport
  | unauth
deriving Repr, DecidableEq

/-- The attempt outcomes that go through `try_again` without touching the
token state: non-allow-listed status, transport error, malformed JSON body. -/
def retryable : AttemptOutcome → Bool
  | .badJson => true
  | .badStatus => true
  | .transport => true
  | _ => false

/-- Result of `async_call`: parsed JSON data, raw text, or one of the two
`HomeAssistantError`s it raises (`"Retry limit reached"` at line 116,
`"Wrong username / password"` at line 137). -/
inductive CallResult where
  | data (body : String)
  | text (t : String)
  | retryLimitError
  | authError
deriving Repr, DecidableEq

/-- Mutable state visible to `async_call`: the token machinery plus the
`disabled` flag standing for `self._hass.services.async_remove(DOMAIN)`
(line 136), which unloads the integration. -/
structure CallState where
  auth : AuthState
  disabled : Bool
deriving Repr, DecidableEq

/-- Outcome of handling one attempt in `async_call`: either the call is
`done` with a result, or `try_again` is invoked on an updated state. -/
inductive StepRes where
  | done (r : CallResult) (st : CallState)
  | again (st : CallState)
deriving Repr, DecidableEq

/-- One attempt of `async_call` (lines 123-154) given its classified
outcome `o`.  `isOauth` is `("oauth2" in url)`.  On a 401 from a non-oauth
URL the forced throttled refresh `self.refresh_token(True)` runs (line 130)
and the request is retried; on a 401 from the oauth URL the integration is
disabled and `HomeAssistantError` is raised with no retry (lines 133-137). -/
def attemptStep (nowc : ℤ) (fetchO : ℕ → Option String) (isOauth : Bool)
    (o : AttemptOutcome) (st : CallState) : StepRes :=
  match o with
  | .ok d => .done (.data d) st
  | .okNonJson t => .done (.text t) st
  | .badJson => .again st
  | .badStatus => .again st
  | .transport => .again st
  | .unauth =>
    if isOauth then .done .authError { st with disabled := true }
    else .again { st with auth := (refresh_token nowc fetchO true st.auth).1 }

/-- `Hilo.async_call` (lines 112-154).  `oracle idx` classifies the idx-th
attempt; `retry` is the remaining retry budget (`retry` parameter, default
3).  `try_again` (lines 113-120) raises `"Retry limit reached"` when
`retry < 1` and otherwise recurses with `retry - 1`.  Returns the result,
the final state and the total number of attempts performed. -/
def async_callGo (oracle : ℕ → AttemptOutcome) (nowc : ℤ)
    (fetchO : ℕ → Option String) (isOauth : Bool) :
    ℕ → ℕ → CallState → CallResult × CallState × ℕ
  | retry, idx, st =>
    match attemptStep nowc fetchO isOauth (oracle idx) st with
    | .done r st' => (r, st', 1)
    | .again st' =>
      match retry with
      | 0 => (.retryLimitError, st', 1)
      | r + 1 =>
        let out := async_callGo oracle nowc fetchO isOauth r (idx + 1) st'
        (out.1, out.2.1, out.2.2 + 1)

/-- Entry point `async_call` with the default budget handled by
`hilo_request` below; kept parametric in the budget for the retry-count
claims. -/
def async_call (oracle : ℕ → AttemptOutcome) (nowc : ℤ)
    (fetchO : ℕ → Option String) (isOauth : Bool) (retry : ℕ)
    (st : CallState) : CallResult × CallState × ℕ :=
  async_callGo oracle nowc fetchO isOauth retry 0 st

/-- `Hilo._request` (lines 156-167): runs the throttled `refresh_token()`
(unforced, its Boolean result is discarded), then `async_call` with the
default budget 3.  The `except HomeAssistantError` clause logs and
re-raises, so `async_call`'s error results are returned unchanged. -/
def hilo_request (oracle : ℕ → AttemptOutcome) (nowc : ℤ)
    (fetchO : ℕ → Option String) (isOauth : Bool) (st : CallState) :
    CallResult × CallState × ℕ :=
  let a' := (refresh_token nowc fetchO false st.auth).1
  async_callGo oracle nowc fetchO isOauth 3 0 { st with auth := a' }

/-! ## Device registry (`Device`, `Hilo.get_dev_or_new`, `Hilo.add_device`)
and the device attribute operations. -/

/-- A device descriptor as returned by the `/Devices` endpoint (or the
synthesized gateway dict of `get_gateway`): the keyword arguments consumed by
`Device._set_hilo_attributes`. -/
structure DeviceDescr where
  name : String
  dtype : String
  supportedAttributes : String
  settableAttributes : String
  id : ℕ
  category : String
deriving Repr, DecidableEq

/-- The `Device` record: the fields assigned by `_set_hilo_attributes`, the
`_raw_attributes` cache, and `local_fields` standing for the dynamic
`setattr(self, key, value)` fields written by `set_attribute`. -/
structure Device where
  name : String := ""
  device_type : String := ""
  supported_attributes : List String := []
  settable_attributes : String := ""
  device_id : ℕ := 0
  category : String := ""
  device_url : String := ""
  raw_attributes : List (String × String) := []
  local_fields : List (String × String) := []
deriving Repr, DecidableEq

/-- A freshly constructed `Device(self)` before `_set_hilo_attributes` ran. -/
def newDevice : Device := {}

/-- `Device.__eq__` (lines 471-472): equality is solely by `device_id`. -/
def deviceEq (a b : Device) : Bool := a.device_id == b.device_id

/-- Character-level worker for `splitOnSep`, structural in its fuel so that
concrete runs reduce; the fuel is one more than the input length. -/
def splitAuxCh (sep : List Char) : ℕ → List Char → List Char → List (List Char)
  | 0, acc, rest => [acc.reverse ++ rest]
  | _ + 1, acc, [] => [acc.reverse]
  | fuel + 1, acc, c :: cs =>
    if sep.isPrefixOf (c :: cs) then
      acc.reverse :: splitAuxCh sep fuel [] ((c :: cs).drop sep.length)
    else
      splitAuxCh sep fuel (c :: acc) cs

/-- Python `str.split(sep)` for a non-empty separator: non-overlapping
left-to-right splits; `"" .split(sep) = [""]`. -/
def splitOnSep (s sep : String) : List String :=
  (splitAuxCh sep.data (s.data.length + 1) [] s.data).map (fun l => ⟨l⟩)

/-- `Device._set_hilo_attributes` (lines 417-433): copies the descriptor
fields, splits `supportedAttributes` on `", "`, resets `_raw_attributes` to
empty, appends `"Disconnected"` when absent, then removes (one occurrence
of) the `"None"` sentinel when present.  `loc` is the cached location URL
used to build `_device_url`. -/
def set_hilo_attributes (loc : String) (d : Device) (kw : DeviceDescr) : Device :=
  let sa0 := splitOnSep kw.supportedAttributes ", "
  let sa1 := if sa0.contains "Disconnected" then sa0 else sa0 ++ ["Disconnected"]
  let sa2 := if sa1.contains "None" then sa1.erase "None" else sa1
  { d with
    name := kw.name
    device_type := kw.dtype
    supported_attributes := sa2
    settable_attributes := kw.settableAttributes
    device_id := kw.id
    category := kw.category
    device_url := loc ++ "/Devices/" ++ toString kw.id
    raw_attributes := [] }

/-- Replace the first element satisfying `p` by its image under `f`:
the in-place mutation of the device found by `get_dev_or_new`. -/
def updateFirst (p : Device → Bool) (f : Device → Device) :
    List Device → List Device
  | [] => []
  | x :: xs => if p x then f x :: xs else x :: updateFirst p f xs

/-- `Hilo.add_device` (lines 287-296).  `get_dev_or_new` returns the first
registered device whose `device_id` matches `v["id"]`, or a fresh `Device`;
`_set_hilo_attributes(**v)` then mutates it in place, and the device is
appended only if `device in self.devices` is false — membership via
`Device.__eq__`, i.e. `deviceEq`. -/
def add_device (loc : String) (ds : List Device) (v : DeviceDescr) : List Device :=
  if ds.any (fun x => x.device_id == v.id) then
    updateFirst (fun x => x.device_id == v.id)
      (fun x => set_hilo_attributes loc x v) ds
  else
    let device := set_hilo_attributes loc newDevice v
    if ds.any (fun x => deviceEq x device) then ds else ds ++ [device]

/-- Python `str.lower()` on the (ASCII) attribute names, mapped over the
characters; structural so that concrete runs reduce. -/
def lowerStr (s : String) : String := ⟨s.data.map Char.toLower⟩

/-- `Device.get_device_attributes` (lines 435-448), with the HTTP fetch
abstracted by the oracle `fetch` (indexed by how many fetches this call tree
performed; for gateway devices the oracle stands for `get_gateway`).  A
non-empty response replaces the cache with lowercased keys; an empty
response with an empty cache recurses immediately; an empty response with a
non-empty cache is accepted.  The recursion in the source is unbounded, so
the embedding carries fuel and returns `none` when the fuel runs out (the
source would still be recursing); otherwise it returns the final
`_raw_attributes` cache and the number of fetches performed. -/
def get_device_attributes (fetch : ℕ → List (String × String)) :
    ℕ → ℕ → List (String × String) → Option (List (String × String) × ℕ)
  | 0, _, _ => none
  | fuel + 1, idx, raw =>
    let req := fetch idx
    if req.length ≠ 0 then
      some (req.map (fun p => (lowerStr p.1, p.2)), 1)
    else if raw.length = 0 then
      match get_device_attributes fetch fuel (idx + 1) raw with
      | some (r, n) => some (r, n + 1)
      | none => none
    else
      some (raw, 1)

/-- Set key `k` to `v` in an association list modelling a Python dict:
overwrite when the key is present, append otherwise. -/
def setKV {α : Type} (l : List (String × α)) (k : String) (v : α) :
    List (String × α) :=
  if l.any (fun p => p.1 == k) then
    l.map (fun p => if p.1 == k then (k, v) else p)
  else l ++ [(k, v)]

/-- `dict.get`-style lookup in an association list. -/
def lookupKV {α : Type} (l : List (String × α)) (k : String) : Option α :=
  (l.find? (fun p => p.1 == k)).map (fun p => p.2)

/-- Key-presence test (`k in d.keys()`). -/
def keyMemKV {α : Type} (l : List (String × α)) (k : String) : Bool :=
  l.any (fun p => p.1 == k)

/-- The outbound PUT issued by `Device.set_attribute`:
`self._h._request(url, method="put", data=json.dumps({key: str(value)}))`.
The JSON body is represented as its single key/value pair. -/
structure WriteReq where
  url : String
  method : String
  body : List (String × String)
deriving Repr, DecidableEq

/-- `Device.set_attribute` (lines 450-456): a no-op for gateway devices;
otherwise sets the local field optimistically and issues the PUT to
`{_device_url}/Attributes` with the single-key JSON payload.  Returns the
updated device and the request issued (if any). -/
def set_attribute (d : Device) (key value : String) : Device × Option WriteReq :=
  if d.device_type = "Gateway" then (d, none)
  else
    let d' := { d with local_fields := setKV d.local_fields key value }
    (d', some { url := d.device_url ++ "/Attributes", method := "put",
                body := [(key, value)] })

/-! ## Host state store, `set_state`, `fix_utility_sensor`, `check_tarif`. -/

/-- A state object in the host platform's state store: `state` value plus an
attribute dict whose values may be Python `None` (hence `Option String`). -/
structure StateObj where
  state : String
  attributes : List (String × Option String)
deriving Repr, DecidableEq

/-- `{**attrs, **new_attrs}`: merge, with `new_attrs` winning. -/
def mergeA (l news : List (String × Option String)) :
    List (String × Option String) :=
  news.foldl (fun acc p => setKV acc p.1 p.2) l

/-- `Hilo.set_state` (lines 317-336), with `datetime.now()` passed in as
`nowS`.  Returns the `async_set(entity, state, attrs)` call performed, or
`none` when the early `return` fires (no current state and `force` false). -/
def set_state (states : String → Option StateObj) (nowS : String)
    (entity : String) (state : Option String)
    (new_attrs : List (String × Option String)) (keep_state force : Bool) :
    Option (String × Option String × List (String × Option String)) :=
  let current := states entity
  let attrs0 : Option (List (String × Option String)) :=
    match current with
    | none => if force then some [] else none
    | some cur => some cur.attributes
  match attrs0 with
  | none => none
  | some attrs =>
    let attrs := setKV attrs "last_update" (some nowS)
    let attrs := mergeA attrs new_attrs
    let state := match keep_state, current with
      | true, some cur => some cur.state
      | _, _ => state
    let attrs := if keyMemKV attrs "Cost" then setKV attrs "Cost" state else attrs
    some (entity, state, attrs)

/-- `Hilo.fix_utility_sensor` (lines 373-395): patches an energy entity's
attributes via `set_state(entity, None, new_attrs, keep_state=True)` only
when a non-falsy `source` attribute exists, the source entity has a state,
and at least one of `unit_of_measurement` / `device_class` keys is absent.
`new_attrs` copies the unit from the source entity and hardcodes
`device_class` to `DEVICE_CLASS_ENERGY` (`"energy"`).  Returns the
`async_set` call performed, if any. -/
def fix_utility_sensor (states : String → Option StateObj) (nowS : String)
    (entity : String) (st : StateObj) :
    Option (String × Option String × List (String × Option String)) :=
  let attrs := st.attributes
  match (lookupKV attrs "source").getD none with
  | none => none
  | some src =>
    if src = "" then none
    else
      match states src with
      | none => none
      | some parent =>
        let new_attrs : List (String × Option String) :=
          [("unit_of_measurement", (lookupKV parent.attributes "unit_of_measurement").getD none),
           ("device_class", some "energy")]
        if keyMemKV attrs "unit_of_measurement" && keyMemKV attrs "device_class" then none
        else set_state states nowS entity none new_attrs true false

/-! ## Tariff computation (`Hilo.high_times`, `Hilo.check_tarif`). -/

/-- Tariff configuration for the active plan, one entry of `CONF_TARIFF`
(defined in `const.py`): the `low_threshold` and `high` values read by
`check_tarif`. -/
structure TarifConfig where
  low_threshold : ℚ
  high : ℚ
deriving Repr, DecidableEq

/-- `Hilo.high_times` (lines 105-110): true when the current local time lies
in some configured high-price window, inclusive on both bounds
(`data["from"] <= now <= data["to"]`).  `periods` are the
`CONF_HIGH_PERIODS` windows and `nowT` the current time of day, both mapped
to rationals order-isomorphically. -/
def high_times (periods : List (ℚ × ℚ)) (nowT : ℚ) : Bool :=
  periods.any (fun p => decide (p.1 ≤ nowT) && decide (nowT ≤ p.2))

/-- The tier computation inside `check_tarif` (lines 339-355) given the
energy sensor's state string.  `pfloat` is the oracle for Python `float()`
parsing (`none` means `ValueError`, which the source catches and ignores,
leaving the tier at `"low"`).  The medium promotion compares
`float(state) >= low_threshold`; afterwards the high promotion applies when
`tarif_config.get("high") > 0` and `high_times` holds. -/
def tarif_tier (pfloat : String → Option ℚ) (cfg : TarifConfig)
    (periods : List (ℚ × ℚ)) (nowT : ℚ) (energyState : String) : String :=
  let tarif := "low"
  let tarif := match pfloat energyState with
    | some x => if cfg.low_threshold ≤ x then "medium" else tarif
    | none => tarif
  if 0 < cfg.high ∧ high_times periods nowT = true then "high" else tarif

/-- The Python exceptions surfaced by the embedded `check_tarif`. -/
inductive PyError where
  | attributeError
deriving Repr, DecidableEq

/-- `Hilo.check_tarif` through its publish step (lines 338-361): returns the
computed tier together with the state value passed to
`set_state("sensor.hilo_rate_current", ...)`, or `none` in place of the
write when the target and current rates already agree.  A missing base
energy sensor returns `"low"` immediately.  The publish step reads
`target_cost.state` and then `current_cost.state` with no `None` check, so a
missing rate sensor surfaces as an `AttributeError`. -/
def check_tarif (pfloat : String → Option ℚ) (cfg : TarifConfig)
    (periods : List (ℚ × ℚ)) (nowT : ℚ)
    (states : String → Option StateObj) :
    Except PyError (String × Option String) :=
  match states "sensor.hilo_energy_total_daily_low" with
  | none => .ok ("low", none)
  | some energy_used =>
    let current_cost := states "sensor.hilo_rate_current"
    let tarif := tarif_tier pfloat cfg periods nowT energy_used.state
    match states ("sensor.hilo_rate_" ++ tarif) with
    | none => .error .attributeError
    | some target_cost =>
      match current_cost with
      | none => .error .attributeError
      | some cc =>
        .ok (tarif, if target_cost.state ≠ cc.state then some target_cost.state else none)

/-! ## Shared concrete inputs for witnesses and counterexamples. -/

/-- A fresh auth state: no token, no stored expiration, throttle idle. -/
def authEx0 : AuthState := ⟨none, none, none, 0, 0⟩

/-- A fresh call state over `authEx0`. -/
def cstEx0 : CallState := ⟨authEx0, false⟩

/-! ## Transport layer lemmas. -/

/-- A retryable outcome makes `attemptStep` ask for another attempt with the
state untouched. -/
theorem attemptStep_of_retryable (nowc : ℤ) (fetchO : ℕ → Option String)
    (isOauth : Bool) (o : AttemptOutcome) (st : CallState)
    (h : retryable o = true) :
    attemptStep nowc fetchO isOauth o st = .again st := by
  cases o <;> simp [retryable] at h <;> rfl

/-- With every attempt failing retryably, `async_callGo` performs
`retry + 1` attempts, leaves the state untouched, and raises the retry-limit
error. -/
theorem async_callGo_retryable (oracle : ℕ → AttemptOutcome) (nowc : ℤ)
    (fetchO : ℕ → Option String) (isOauth : Bool)
    (h : ∀ k, retryable (oracle k) = true) :
    ∀ (N idx : ℕ) (st : CallState),
      async_callGo oracle nowc fetchO isOauth N idx st
        = (.retryLimitError, st, N + 1) := by
  intro N
  induction N with
  | zero =>
    intro idx st
    unfold async_callGo
    rw [attemptStep_of_retryable nowc fetchO isOauth (oracle idx) st (h idx)]
  | succ n ih =>
    intro idx st
    unfold async_callGo
    rw [attemptStep_of_retryable nowc fetchO isOauth (oracle idx) st (h idx)]
    simp [ih (idx + 1) st]

/-- C1. For every request whose every attempt fails with a retryable error
(non-allow-listed status, transport error, or malformed JSON body),
`async_call` makes exactly `N + 1` total attempts for a configured retry
count `N`, raises the unrecoverable `"Retry limit reached"` error, and
`_request` (default `N = 3`, hence 4 attempts) propagates that error to the
caller unchanged. -/
theorem c1_retry_exhaustion (oracle : ℕ → AttemptOutcome) (nowc : ℤ)
    (fetchO : ℕ → Option String) (N : ℕ) (st : CallState)
    (h : ∀ k, retryable (oracle k) = true) :
    async_call oracle nowc fetchO false N st = (.retryLimitError, st, N + 1)
    ∧ (hilo_request oracle nowc fetchO false st).1 = .retryLimitError
    ∧ (hilo_request oracle nowc fetchO false st).2.2 = 4 := by
  refine ⟨async_callGo_retryable oracle nowc fetchO false h N 0 st, ?_, ?_⟩ <;>
    simp [hilo_request, async_callGo_retryable oracle nowc fetchO false h 3 0]

/-- Witness for C1 at a concrete always-timing-out request with the default
budget of 3 retries: four attempts, then the retry-limit error. -/
theorem c1_retry_exhaustion_witness :
    async_call (fun _ => AttemptOutcome.transport) 0 (fun _ => none) false 3 cstEx0
      = (.retryLimitError, cstEx0, 4) :=
  (c1_retry_exhaustion (fun _ => AttemptOutcome.transport) 0 (fun _ => none)
    3 cstEx0 (fun _ => rfl)).1

/-- `refresh_run` never touches the forced-invocation counter. -/
theorem refresh_run_forced (nowc : ℤ) (fetchO : ℕ → Option String)
    (force : Bool) (a : AuthState) :
    (refresh_run nowc fetchO force a).1.forced_invocations
      = a.forced_invocations := by
  unfold refresh_run
  dsimp only
  split <;> rfl

/-- Invoking the throttled forced refresh bumps the forced-invocation
counter by exactly one, throttled or not. -/
theorem refresh_token_forced (nowc : ℤ) (fetchO : ℕ → Option String)
    (a : AuthState) :
    (refresh_token nowc fetchO true a).1.forced_invocations
      = a.forced_invocations + 1 := by
  unfold refresh_token
  dsimp only [Bool.cond_true]
  split
  · split
    · rfl
    · rw [refresh_run_forced]
  · rw [refresh_run_forced]

/-- C2. A 401 from a non-token URL forces exactly one invocation of the
token refresh (`refresh_token(True)`) and retries the same request once via
the retry path, consuming one unit of retry budget (budget `r + 1` at the
401, budget `r` for the retried attempt; two attempts total).  A 401 from
the token (oauth) endpoint raises the unrecoverable authentication error
with zero retries — a single attempt — and disables the integration. -/
theorem c2_unauthorized_401 (oracle : ℕ → AttemptOutcome) (nowc : ℤ)
    (fetchO : ℕ → Option String) (d : String) (r r2 : ℕ)
    (st st2 : CallState) (a : AuthState)
    (h0 : oracle 0 = .unauth) (h1 : oracle 1 = .ok d) :
    async_call oracle nowc fetchO false (r + 1) st
      = (.data d, { st with auth := (refresh_token nowc fetchO true st.auth).1 }, 2)
    ∧ ((refresh_token nowc fetchO true a).1).forced_invocations
        = a.forced_invocations + 1
    ∧ async_call oracle nowc fetchO true r2 st2
        = (.authError, { st2 with disabled := true }, 1) := by
  refine ⟨?_, refresh_token_forced nowc fetchO a, ?_⟩
  · show async_callGo oracle nowc fetchO false (r + 1) 0 st = _
    unfold async_callGo
    rw [h0]
    simp only [attemptStep]
    unfold async_callGo
    rw [h1]
    rfl
  · show async_callGo oracle nowc fetchO true r2 0 st2 = _
    unfold async_callGo
    rw [h0]
    rfl

/-- Witness for C2 at a concrete oracle answering 401 then success. -/
theorem c2_unauthorized_401_witness :
    async_call
        (fun k => match k with | 0 => AttemptOutcome.unauth | _ => AttemptOutcome.ok "D")
        0 (fun _ => some "tok") false 3 cstEx0
      = (.data "D",
         { cstEx0 with
             auth := (refresh_token 0 (fun _ => some "tok") true cstEx0.auth).1 },
         2) :=
  (c2_unauthorized_401
    (fun k => match k with | 0 => AttemptOutcome.unauth | _ => AttemptOutcome.ok "D")
    0 (fun _ => some "tok") "D" 2 3 cstEx0 cstEx0 authEx0 rfl rfl).1

/-- When the token is absent or expired, an unthrottled run of
`_refresh_token` performs exactly one token fetch. -/
theorem refresh_run_expired (nowc : ℤ) (fetchO : ℕ → Option String)
    (force : Bool) (a : AuthState)
    (hexp : a.access_token = none ∨ ∃ e, a.token_expiration = some e ∧ e < nowc) :
    (refresh_run nowc fetchO force a).1.fetch_count = a.fetch_count + 1
    ∧ (refresh_run nowc fetchO force a).2 = some (fetchO a.fetch_count).isSome := by
  unfold refresh_run
  have hcond : force = true ∨ a.access_token = none
      ∨ a.token_expiration.getD (nowc - 200) < nowc := by
    rcases hexp with h | ⟨e, he, hlt⟩
    · exact Or.inr (Or.inl h)
    · right; right; rw [he]; exact hlt
  rw [if_pos hcond]
  exact ⟨rfl, rfl⟩

/-- C7 (amended).  When the stored access token is absent or past its
stored expiration AND the 120-second refresh throttle is not in its
cooldown window, `_request` triggers exactly one token refresh (one
`get_access_token` fetch); a refresh that yields no token returns `False`
instead of raising; and in all cases the original call then proceeds with
the default retry budget. -/
theorem c7_refresh_before_request (oracle : ℕ → AttemptOutcome) (nowc : ℤ)
    (fetchO : ℕ → Option String) (isOauth : Bool) (a : AuthState)
    (dflag : Bool)
    (hthr : a.throttle_last = none ∨ ∃ t, a.throttle_last = some t ∧ 120 < nowc - t)
    (hexp : a.access_token = none ∨ ∃ e, a.token_expiration = some e ∧ e < nowc) :
    (refresh_token nowc fetchO false a).1.fetch_count = a.fetch_count + 1
    ∧ (fetchO a.fetch_count = none → (refresh_token nowc fetchO false a).2 = some false)
    ∧ hilo_request oracle nowc fetchO isOauth ⟨a, dflag⟩
        = async_callGo oracle nowc fetchO isOauth 3 0
            ⟨(refresh_token nowc fetchO false a).1, dflag⟩ := by
  have hrun : refresh_token nowc fetchO false a = refresh_run nowc fetchO false a := by
    unfold refresh_token
    dsimp only [Bool.cond_false]
    rcases hthr with h | ⟨t, ht, hgt⟩
    · rw [h]
    · rw [ht]
      simp only [if_neg (not_le.mpr (by linarith : (120 : ℤ) < nowc - t))]
  refine ⟨?_, ?_, rfl⟩
  · rw [hrun]; exact (refresh_run_expired nowc fetchO false a hexp).1
  · intro hnone
    rw [hrun, (refresh_run_expired nowc fetchO false a hexp).2, hnone]
    rfl

/-- Witness for C7 (amended): fresh state, throttle idle, refresh yields no
token — one fetch counted. -/
theorem c7_refresh_before_request_witness :
    (refresh_token 500 (fun _ => none) false authEx0).1.fetch_count
      = authEx0.fetch_count + 1 :=
  (c7_refresh_before_request (fun _ => AttemptOutcome.ok "") 500 (fun _ => none)
    false authEx0 false (Or.inl rfl) (Or.inl rfl)).1

/-- Counterexample to C7 as stated: the token is absent, but a refresh ran
(and failed) 10 seconds ago, so the `Throttle(120s)` wrapper collapses the
refresh inside `_request` to a no-op — zero token fetches happen, not
exactly one. -/
theorem c7_cex_throttled_refresh :
    (hilo_request (fun _ => AttemptOutcome.ok "D") 110 (fun _ => some "tok")
        false ⟨⟨none, none, some 100, 0, 0⟩, false⟩).2.1.auth.fetch_count = 0
    ∧ (⟨none, none, some 100, 0, 0⟩ : AuthState).access_token = none
    ∧ (0 : ℕ) ≠ 1 :=
  ⟨by decide, rfl, by decide⟩

/-! ## Tariff tier lemmas (C3, C10). -/

/-- `high_times` holds exactly when some configured window contains the
current time, both bounds inclusive. -/
theorem high_times_iff (periods : List (ℚ × ℚ)) (nowT : ℚ) :
    high_times periods nowT = true ↔ ∃ p ∈ periods, p.1 ≤ nowT ∧ nowT ≤ p.2 := by
  simp [high_times, List.any_eq_true]

/-- C3 (amended).  The computed tier is `"high"` exactly when the plan's
`high` value is positive and the current local time lies inside some
configured window (inclusive bounds); otherwise it is `"medium"` exactly
when the energy reading parses as a number that is `≥ low_threshold`, and
`"low"` otherwise — in particular a non-numeric reading skips only the
medium promotion and can still be promoted to `"high"`.  A missing base
energy sensor makes `check_tarif` return `"low"` immediately, with no rate
publish. -/
theorem c3_tarif_tier (pfloat : String → Option ℚ) (cfg : TarifConfig)
    (periods : List (ℚ × ℚ)) (nowT : ℚ) (s : String)
    (states : String → Option StateObj)
    (hm : states "sensor.hilo_energy_total_daily_low" = none) :
    tarif_tier pfloat cfg periods nowT s
      = (if 0 < cfg.high ∧ ∃ p ∈ periods, p.1 ≤ nowT ∧ nowT ≤ p.2 then "high"
         else match pfloat s with
           | some x => if cfg.low_threshold ≤ x then "medium" else "low"
           | none => "low")
    ∧ check_tarif pfloat cfg periods nowT states = .ok ("low", none) := by
  constructor
  · unfold tarif_tier
    dsimp only
    by_cases hh : 0 < cfg.high ∧ high_times periods nowT = true
    · rw [if_pos hh, if_pos ⟨hh.1, (high_times_iff periods nowT).mp hh.2⟩]
    · rw [if_neg hh,
        if_neg (fun hc => hh ⟨hc.1, (high_times_iff periods nowT).mpr hc.2⟩)]
  · unfold check_tarif
    rw [hm]

/-- Witness for C3 (amended) at `energy_used = 15`, `low_threshold = 10`,
`high` flag off: the tier is the spec-side value (`"medium"`), and a state
store without the base sensor yields `"low"` with no publish. -/
theorem c3_tarif_tier_witness :
    tarif_tier (fun s => if s = "15" then some 15 else none) ⟨10, 0⟩ [] 0 "15"
      = (if 0 < (⟨10, 0⟩ : TarifConfig).high ∧
            ∃ p ∈ ([] : List (ℚ × ℚ)), p.1 ≤ (0 : ℚ) ∧ (0 : ℚ) ≤ p.2 then "high"
         else match (fun s => if s = "15" then some (15 : ℚ) else none) "15" with
           | some x => if (⟨10, 0⟩ : TarifConfig).low_threshold ≤ x then "medium" else "low"
           | none => "low")
    ∧ check_tarif (fun s => if s = "15" then some 15 else none) ⟨10, 0⟩ [] 0
        (fun _ => none) = .ok ("low", none) :=
  c3_tarif_tier (fun s => if s = "15" then some 15 else none) ⟨10, 0⟩ [] 0 "15"
    (fun _ => none) rfl

/-- Counterexample to C3 as stated: a non-numeric energy reading does NOT
fall back to `"low"` — with the `high` flag on and the time inside a window
the code still promotes to `"high"` (the `ValueError` is caught and only the
medium promotion is skipped). -/
theorem c3_cex_nonnumeric_reading_goes_high :
    tarif_tier (fun _ => none) ⟨10, 1⟩ [(0, 100)] 50 "abc" = "high"
    ∧ ("high" : String) ≠ "low" := by
  constructor
  · rfl
  · decide

/-- C10.  `check_tarif` dereferences `.state` on the current-rate sensor and
on the tier-specific reference sensor without a `None` check: whenever the
base energy sensor exists but either rate sensor is absent from the state
store, the publish step raises (`AttributeError`) instead of logging and
falling back. -/
theorem c10_publish_requires_rate_sensors (pfloat : String → Option ℚ)
    (cfg : TarifConfig) (periods : List (ℚ × ℚ)) (nowT : ℚ)
    (states : String → Option StateObj) (e : StateObj)
    (h1 : states "sensor.hilo_energy_total_daily_low" = some e)
    (h2 : states ("sensor.hilo_rate_" ++ tarif_tier pfloat cfg periods nowT e.state) = none
          ∨ states "sensor.hilo_rate_current" = none) :
    check_tarif pfloat cfg periods nowT states = .error .attributeError := by
  unfold check_tarif
  rw [h1]
  dsimp only
  rcases h2 with h | h
  · rw [h]
  · cases htc : states ("sensor.hilo_rate_" ++ tarif_tier pfloat cfg periods nowT e.state) with
    | none => rfl
    | some tc =>
      dsimp only
      rw [h]

/-- Witness for C10: base sensor present, both rate sensors absent. -/
theorem c10_publish_requires_rate_sensors_witness :
    check_tarif (fun _ => some 5) ⟨10, 1⟩ [] 0
      (fun n => if n = "sensor.hilo_energy_total_daily_low"
                then some ⟨"5", []⟩ else none)
      = .error .attributeError :=
  c10_publish_requires_rate_sensors (fun _ => some 5) ⟨10, 1⟩ [] 0
    (fun n => if n = "sensor.hilo_energy_total_daily_low"
              then some ⟨"5", []⟩ else none)
    ⟨"5", []⟩ (by decide) (Or.inr (by decide))

/-! ## Device attribute fetch lemmas (C4). -/

/-- C4 (amended).  On an empty attribute response with an empty cache the
fetch is retried immediately and recursively until a response is non-empty:
a single transient empty response causes exactly one retry (two fetches,
the second response is cached with lowercased keys), but an always-empty
response retries forever (no fuel suffices).  Once any attribute value has
been cached, an empty response is accepted with no retry and the cached
attributes are left unchanged. -/
theorem c4_empty_fetch_retry (fetch fetch2 : ℕ → List (String × String))
    (idx idx2 fuel : ℕ) (raw : List (String × String))
    (h1 : fetch idx = []) (h2 : fetch (idx + 1) ≠ [])
    (hr : raw ≠ []) (hall : ∀ k, fetch2 k = []) :
    get_device_attributes fetch (fuel + 2) idx []
      = some ((fetch (idx + 1)).map (fun p => (lowerStr p.1, p.2)), 2)
    ∧ get_device_attributes fetch (fuel + 1) idx raw = some (raw, 1)
    ∧ ∀ fl, get_device_attributes fetch2 fl idx2 [] = none := by
  have h0 : ([] : List (String × String)).length = 0 := rfl
  have hdiv : ∀ (fl i : ℕ), get_device_attributes fetch2 fl i [] = none := by
    intro fl
    induction fl with
    | zero => intro i; rfl
    | succ n ih =>
      intro i
      unfold get_device_attributes
      rw [hall i]
      dsimp only
      rw [if_neg (by simp), if_pos h0, ih (i + 1)]
  refine ⟨?_, ?_, fun fl => hdiv fl idx2⟩
  · unfold get_device_attributes
    rw [h1]
    dsimp only
    rw [if_neg (by simp), if_pos h0]
    unfold get_device_attributes
    dsimp only
    rw [if_pos (fun hl => h2 (List.length_eq_zero.mp hl))]
  · unfold get_device_attributes
    rw [h1]
    dsimp only
    rw [if_neg (by simp), if_neg (fun hl => hr (List.length_eq_zero.mp hl))]

/-- Witness for C4 (amended): one transient empty response on first load,
then a non-empty one — two fetches in total, keys lowercased. -/
theorem c4_empty_fetch_retry_witness :
    get_device_attributes (fun n => if n = 0 then [] else [("A", "1")]) (0 + 2) 0 []
      = some (((fun n => if n = 0 then [] else [("A", "1")]) (0 + 1)).map
          (fun p => (lowerStr p.1, p.2)), 2) :=
  (c4_empty_fetch_retry (fun n => if n = 0 then [] else [("A", "1")])
    (fun _ => []) 0 0 0 [("x", "y")] rfl (by decide) (by decide)
    (fun _ => rfl)).1

/-- Counterexample to C4 as stated: with an empty cache, two consecutive
empty responses followed by a non-empty one produce three fetches — the
empty first fetch is retried twice, not "once". -/
theorem c4_cex_retries_more_than_once :
    get_device_attributes (fun n => if n ≤ 1 then [] else [("A", "1")]) 10 0 []
      = some ([("a", "1")], 3)
    ∧ (3 : ℕ) ≠ 2 := by
  constructor
  · decide
  · decide

/-! ## Registry lemmas (C5). -/

/-- `updateFirst` preserves any count whose predicate is preserved by the
update function on elements matched by the guard. -/
theorem countP_updateFirst (p g : Device → Bool) (f : Device → Device)
    (h : ∀ x, g x = true → p (f x) = p x) :
    ∀ l : List Device, (updateFirst g f l).countP p = l.countP p := by
  intro l
  induction l with
  | nil => rfl
  | cons x xs ih =>
    unfold updateFirst
    by_cases hg : g x = true
    · rw [if_pos hg, List.countP_cons, List.countP_cons, h x hg]
    · rw [if_neg hg, List.countP_cons, List.countP_cons, ih]

/-- `updateFirst` never changes the registry's length. -/
theorem length_updateFirst (g : Device → Bool) (f : Device → Device) :
    ∀ l : List Device, (updateFirst g f l).length = l.length := by
  intro l
  induction l with
  | nil => rfl
  | cons x xs ih =>
    unfold updateFirst
    by_cases hg : g x = true
    · rw [if_pos hg]; rfl
    · rw [if_neg hg]; simpa using ih

/-- `_set_hilo_attributes` stamps the descriptor's identifier. -/
theorem set_hilo_attributes_id (loc : String) (d : Device) (kw : DeviceDescr) :
    (set_hilo_attributes loc d kw).device_id = kw.id := rfl

/-- One `add_device` preserves "at most one device per identifier". -/
theorem add_device_countP (loc : String) (ds : List Device) (v : DeviceDescr)
    (i : ℕ) (hle : ds.countP (fun d => d.device_id == i) ≤ 1) :
    (add_device loc ds v).countP (fun d => d.device_id == i) ≤ 1 := by
  unfold add_device
  by_cases hany : ds.any (fun x => x.device_id == v.id) = true
  · rw [if_pos hany]
    rw [countP_updateFirst _ _ _ ?_ ds]
    · exact hle
    · intro x hx
      have hxid : x.device_id = v.id := by simpa using hx
      rw [set_hilo_attributes_id, hxid]
  · rw [if_neg hany]
    have hany' : ds.any (fun x => x.device_id == v.id) = false :=
      Bool.not_eq_true _ ▸ Bool.of_not_eq_true hany
    have hall : ∀ x ∈ ds, x.device_id ≠ v.id := by
      intro x hx
      have := List.any_eq_false.mp hany' x hx
      simpa using this
    have hdev : ds.any
        (fun x => deviceEq x (set_hilo_attributes loc newDevice v)) = false := by
      rw [List.any_eq_false]
      intro x hx
      simp [deviceEq, set_hilo_attributes_id]
      exact hall x hx
    dsimp only
    rw [hdev]
    simp only [Bool.false_eq_true, if_false]
    rw [List.countP_append]
    by_cases hvi : v.id = i
    · have h0 : ds.countP (fun d => d.device_id == i) = 0 := by
        rw [List.countP_eq_zero]
        intro x hx
        simp only [beq_eq_false_iff_ne, ne_eq, beq_iff_eq]
        rw [← hvi]
        exact hall x hx
      rw [h0]
      simp [List.countP_cons, set_hilo_attributes_id, hvi]
    · have h1 : (List.countP (fun d => d.device_id == i)
          [set_hilo_attributes loc newDevice v]) = 0 := by
        simp [List.countP_cons, set_hilo_attributes_id, hvi]
      rw [h1]
      simpa using hle

/-- Folding `add_device` over any descriptor sequence preserves the
uniqueness invariant. -/
theorem foldl_add_device_countP (loc : String) (i : ℕ) :
    ∀ (vs : List DeviceDescr) (ds : List Device),
      ds.countP (fun d => d.device_id == i) ≤ 1 →
      ((vs.foldl (add_device loc) ds).countP (fun d => d.device_id == i)) ≤ 1 := by
  intro vs
  induction vs with
  | nil => intro ds h; exact h
  | cons v vs ih =>
    intro ds h
    exact ih _ (add_device_countP loc ds v i h)

/-- C5.  Starting from an empty registry, however many times an identifier
appears across device-list fetches, at most one `Device` with that
identifier is registered; `add_device` appends exactly the freshly
initialised device when no registered device compares equal to it
(equality being solely by identifier, `Device.__eq__`), and updates in
place — length unchanged — when one does. -/
theorem c5_registry_unique_ids (loc : String) (vs : List DeviceDescr) (i : ℕ)
    (ds ds2 : List Device) (v v2 : DeviceDescr)
    (h1 : ds.any (fun x => x.device_id == v.id) = false)
    (h2 : ds2.any (fun x => x.device_id == v2.id) = true) :
    ((vs.foldl (add_device loc) []).countP (fun d => d.device_id == i)) ≤ 1
    ∧ add_device loc ds v = ds ++ [set_hilo_attributes loc newDevice v]
    ∧ (add_device loc ds2 v2).length = ds2.length := by
  refine ⟨foldl_add_device_countP loc i vs [] (by simp), ?_, ?_⟩
  · unfold add_device
    rw [h1]
    simp only [Bool.false_eq_true, if_false]
    have hdev : ds.any
        (fun x => deviceEq x (set_hilo_attributes loc newDevice v)) = false := by
      rw [List.any_eq_false]
      intro x hx
      have := List.any_eq_false.mp h1 x hx
      simpa [deviceEq, set_hilo_attributes_id] using this
    rw [hdev]
    simp only [Bool.false_eq_true, if_false]
  · unfold add_device
    rw [if_pos h2, length_updateFirst]

/-- Witness for C5: the identifier 1 is seen twice; the fold keeps a single
device with that identifier; concrete append and in-place cases. -/
theorem c5_registry_unique_ids_witness :
    ((([⟨"a", "t", "X", "", 1, "c"⟩, ⟨"b", "t", "Y", "", 1, "c"⟩] :
        List DeviceDescr).foldl (add_device "L") []).countP
      (fun d => d.device_id == 1)) ≤ 1 :=
  (c5_registry_unique_ids "L"
    [⟨"a", "t", "X", "", 1, "c"⟩, ⟨"b", "t", "Y", "", 1, "c"⟩] 1
    [] [set_hilo_attributes "L" newDevice ⟨"a", "t", "X", "", 5, "c"⟩]
    ⟨"a", "t", "X", "", 1, "c"⟩ ⟨"b", "t", "Y", "", 5, "c"⟩
    rfl (by decide)).1

/-! ## Association-dict lemmas. -/

/-- Rewriting pairs whose key is `k` is the identity on a list without that
key. -/
theorem map_setKV_of_not_any {α : Type} (k : String) (v : α) :
    ∀ xs : List (String × α), (xs.any fun p => p.1 == k) = false →
      (xs.map fun p => if p.1 == k then (k, v) else p) = xs := by
  intro xs
  induction xs with
  | nil => intro _; rfl
  | cons x l ih =>
    intro h
    rw [List.any_cons, Bool.or_eq_false_iff] at h
    rw [List.map_cons, if_neg (by rw [h.1]; exact Bool.false_ne_true), ih h.2]

/-- Lookup after `setKV` at the written key reads back the new value. -/
theorem lookupKV_setKV_self {α : Type} (k : String) (v : α) :
    ∀ l : List (String × α), lookupKV (setKV l k v) k = some v := by
  intro l
  induction l with
  | nil => simp [setKV, lookupKV, List.find?]
  | cons x xs ih =>
    by_cases hx : (x.1 == k) = true
    · unfold setKV
      rw [if_pos (by rw [List.any_cons, hx, Bool.true_or])]
      rw [List.map_cons, if_pos hx]
      unfold lookupKV
      rw [List.find?_cons]
      simp
    · have hx' : (x.1 == k) = false := Bool.eq_false_iff.mpr hx
      by_cases ha : (xs.any fun p => p.1 == k) = true
      · unfold setKV
        rw [if_pos (by rw [List.any_cons, hx', Bool.false_or, ha])]
        rw [List.map_cons, if_neg hx]
        unfold lookupKV
        rw [List.find?_cons, hx']
        have := ih
        unfold setKV at this
        rw [if_pos ha] at this
        exact this
      · have ha' : (xs.any fun p => p.1 == k) = false := Bool.eq_false_iff.mpr ha
        unfold setKV
        rw [if_neg (by rw [List.any_cons, hx', Bool.false_or, ha']; exact Bool.false_ne_true)]
        unfold lookupKV
        rw [List.cons_append, List.find?_cons, hx']
        have := ih
        unfold setKV at this
        rw [if_neg (by rw [ha']; exact Bool.false_ne_true)] at this
        exact this

/-- Lookup after `setKV` at any other key is unchanged. -/
theorem lookupKV_setKV_ne {α : Type} (k k' : String) (v : α) (hne : k' ≠ k) :
    ∀ l : List (String × α), lookupKV (setKV l k v) k' = lookupKV l k' := by
  have hkk' : (k == k') = false := by
    simpa using fun hh => hne hh.symm
  intro l
  induction l with
  | nil =>
    simp only [setKV, lookupKV, List.any_nil, List.nil_append]
    rw [if_neg Bool.false_ne_true]
    simp [List.find?, hkk']
  | cons x xs ih =>
    by_cases hx : (x.1 == k) = true
    · have hxk : x.1 = k := by simpa using hx
      have hx'' : (x.1 == k') = false := by rw [hxk]; exact hkk'
      unfold setKV
      rw [if_pos (by rw [List.any_cons, hx, Bool.true_or])]
      rw [List.map_cons, if_pos hx]
      unfold lookupKV
      rw [List.find?_cons, List.find?_cons, hkk', hx'']
      by_cases ha : (xs.any fun p => p.1 == k) = true
      · have := ih
        unfold setKV at this
        rw [if_pos ha] at this
        exact this
      · rw [map_setKV_of_not_any k v xs (Bool.eq_false_iff.mpr ha)]
    · have hx' : (x.1 == k) = false := Bool.eq_false_iff.mpr hx
      by_cases ha : (xs.any fun p => p.1 == k) = true
      · unfold setKV
        rw [if_pos (by rw [List.any_cons, hx', Bool.false_or, ha])]
        rw [List.map_cons, if_neg hx]
        unfold lookupKV
        rw [List.find?_cons, List.find?_cons]
        cases hxx : (x.1 == k') with
        | true => rfl
        | false =>
          have := ih
          unfold setKV at this
          rw [if_pos ha] at this
          exact this
      · have ha' : (xs.any fun p => p.1 == k) = false := Bool.eq_false_iff.mpr ha
        unfold setKV
        rw [if_neg (by rw [List.any_cons, hx', Bool.false_or, ha']; exact Bool.false_ne_true)]
        unfold lookupKV
        rw [List.cons_append, List.find?_cons, List.find?_cons]
        cases hxx : (x.1 == k') with
        | true => rfl
        | false =>
          have := ih
          unfold setKV at this
          rw [if_neg (by rw [ha']; exact Bool.false_ne_true)] at this
          exact this

/-! ## Supported-attributes invariant (C8). -/

/-- C8 (amended).  After `_set_hilo_attributes`, `"Disconnected"` is always
in the supported attributes, even when absent from the remote declaration;
and as long as the declaration lists the `"None"` sentinel at most once
(the `list.remove` in the source removes a single occurrence), the result
never contains `"None"`. -/
theorem c8_supported_attributes (loc : String) (d : Device) (kw : DeviceDescr)
    (hc : (splitOnSep kw.supportedAttributes ", ").count "None" ≤ 1) :
    "Disconnected" ∈ (set_hilo_attributes loc d kw).supported_attributes
    ∧ "None" ∉ (set_hilo_attributes loc d kw).supported_attributes := by
  have hsa : (set_hilo_attributes loc d kw).supported_attributes
      = (let sa0 := splitOnSep kw.supportedAttributes ", "
         let sa1 := if sa0.contains "Disconnected" then sa0 else sa0 ++ ["Disconnected"]
         if sa1.contains "None" then sa1.erase "None" else sa1) := rfl
  rw [hsa]
  set sa0 := splitOnSep kw.supportedAttributes ", " with hsa0
  dsimp only
  set sa1 := if sa0.contains "Disconnected" then sa0 else sa0 ++ ["Disconnected"]
    with hsa1
  have hd1 : "Disconnected" ∈ sa1 := by
    rw [hsa1]
    by_cases h : sa0.contains "Disconnected" = true
    · rw [if_pos h]
      exact List.mem_of_elem_eq_true h
    · rw [if_neg h]
      exact List.mem_append_right sa0 (List.mem_singleton.mpr rfl)
  have hc1 : sa1.count "None" ≤ 1 := by
    rw [hsa1]
    by_cases h : sa0.contains "Disconnected" = true
    · rw [if_pos h]; exact hc
    · rw [if_neg h]
      rw [List.count_append]
      have : List.count "None" ["Disconnected"] = 0 := by decide
      omega
  by_cases hnn : sa1.contains "None" = true
  · rw [if_pos hnn]
    refine ⟨(List.mem_erase_of_ne (by decide)).mpr hd1, ?_⟩
    have : (sa1.erase "None").count "None" = sa1.count "None" - 1 :=
      List.count_erase_self "None" sa1
    have h0 : (sa1.erase "None").count "None" = 0 := by omega
    exact List.count_eq_zero.mp h0
  · rw [if_neg hnn]
    refine ⟨hd1, ?_⟩
    intro hmem
    exact hnn (List.elem_eq_true_of_mem hmem)

/-- Witness for C8 (amended): remote declaration `"None"` (single
sentinel). -/
theorem c8_supported_attributes_witness :
    "Disconnected" ∈ (set_hilo_attributes "L" newDevice
        ⟨"n", "t", "None", "", 1, "c"⟩).supported_attributes
    ∧ "None" ∉ (set_hilo_attributes "L" newDevice
        ⟨"n", "t", "None", "", 1, "c"⟩).supported_attributes :=
  c8_supported_attributes "L" newDevice ⟨"n", "t", "None", "", 1, "c"⟩
    (by decide)

/-- Counterexample to C8 as stated: a remote declaration listing the
sentinel twice (`"None, None"`) leaves one `"None"` in the supported
attributes, because `list.remove` removes only the first occurrence. -/
theorem c8_cex_double_sentinel :
    "None" ∈ (set_hilo_attributes "L" newDevice
      ⟨"n", "t", "None, None", "", 1, "c"⟩).supported_attributes := by
  decide

/-! ## Attribute pushes (C9). -/

/-- C9.  `set_attribute` is a no-op for gateway devices: no outbound write,
device unchanged.  For a non-gateway device it optimistically sets the
local field and issues a PUT to the device's attribute endpoint whose body
is the single-key JSON payload `{key: str(value)}`; the device identity is
untouched. -/
theorem c9_gateway_readonly (d1 d2 : Device) (k v : String)
    (h1 : d1.device_type = "Gateway") (h2 : d2.device_type ≠ "Gateway") :
    set_attribute d1 k v = (d1, none)
    ∧ (set_attribute d2 k v).2
        = some ⟨d2.device_url ++ "/Attributes", "put", [(k, v)]⟩
    ∧ lookupKV (set_attribute d2 k v).1.local_fields k = some v
    ∧ (set_attribute d2 k v).1.device_id = d2.device_id := by
  refine ⟨?_, ?_, ?_, ?_⟩
  · unfold set_attribute
    rw [if_pos h1]
  · unfold set_attribute
    rw [if_neg h2]
  · unfold set_attribute
    rw [if_neg h2]
    exact lookupKV_setKV_self k v d2.local_fields
  · unfold set_attribute
    rw [if_neg h2]

/-- Witness for C9 at a concrete gateway and a concrete thermostat. -/
theorem c9_gateway_readonly_witness :
    set_attribute ⟨"g", "Gateway", [], "", 1, "c", "U", [], []⟩ "Power" "1"
      = (⟨"g", "Gateway", [], "", 1, "c", "U", [], []⟩, none)
    ∧ (set_attribute ⟨"t", "Thermostat", [], "", 2, "c", "U2", [], []⟩
        "Power" "1").2
      = some ⟨("U2" : String) ++ "/Attributes", "put", [("Power", "1")]⟩ :=
  ⟨(c9_gateway_readonly ⟨"g", "Gateway", [], "", 1, "c", "U", [], []⟩
      ⟨"t", "Thermostat", [], "", 2, "c", "U2", [], []⟩ "Power" "1" rfl
      (by decide)).1,
   (c9_gateway_readonly ⟨"g", "Gateway", [], "", 1, "c", "U", [], []⟩
      ⟨"t", "Thermostat", [], "", 2, "c", "U2", [], []⟩ "Power" "1" rfl
      (by decide)).2.1⟩

/-! ## Utility-sensor repair (C6). -/

/-- The final `Cost` special-case of `set_state` never disturbs lookups at
other keys. -/
theorem lookupKV_cost_patch (B : List (String × Option String))
    (stv : Option String) (k : String) (hk : k ≠ "Cost") :
    lookupKV (if keyMemKV B "Cost" then setKV B "Cost" stv else B) k
      = lookupKV B k := by
  by_cases h : keyMemKV B "Cost" = true
  · rw [if_pos h]
    exact lookupKV_setKV_ne "Cost" k stv hk B
  · rw [if_neg h]

/-- C6 (amended).  The repair fires exactly when the entity declares a
non-falsy source whose state exists and at least one of
unit-of-measurement / device-class keys is absent: it then writes an
attributes-only patch that preserves the entity's current state value,
copies unit-of-measurement from the source entity, and sets device-class to
the fixed energy class (`DEVICE_CLASS_ENERGY`, not the source's own
device-class).  When both keys are present, or no source is declared, no
write happens. -/
theorem c6_fix_utility_sensor (states : String → Option StateObj)
    (nowS entity src : String) (st parent : StateObj)
    (hcur : states entity = some st)
    (hsrc : (lookupKV st.attributes "source").getD none = some src)
    (hne : src ≠ "")
    (hpar : states src = some parent)
    (hmiss : (keyMemKV st.attributes "unit_of_measurement"
              && keyMemKV st.attributes "device_class") = false) :
    (fix_utility_sensor states nowS entity st).map (fun w => w.1) = some entity
    ∧ (fix_utility_sensor states nowS entity st).map (fun w => w.2.1)
        = some (some st.state)
    ∧ (fix_utility_sensor states nowS entity st).bind
          (fun w => lookupKV w.2.2 "unit_of_measurement")
        = some ((lookupKV parent.attributes "unit_of_measurement").getD none)
    ∧ (fix_utility_sensor states nowS entity st).bind
          (fun w => lookupKV w.2.2 "device_class")
        = some (some "energy")
    ∧ (∀ st2 : StateObj,
        keyMemKV st2.attributes "unit_of_measurement" = true →
        keyMemKV st2.attributes "device_class" = true →
        fix_utility_sensor states nowS entity st2 = none)
    ∧ (∀ st3 : StateObj,
        (lookupKV st3.attributes "source").getD none = none →
        fix_utility_sensor states nowS entity st3 = none) := by
  have key : ∃ A, fix_utility_sensor states nowS entity st
        = some (entity, some st.state, A)
      ∧ lookupKV A "unit_of_measurement"
          = some ((lookupKV parent.attributes "unit_of_measurement").getD none)
      ∧ lookupKV A "device_class" = some (some "energy") := by
    unfold fix_utility_sensor
    dsimp only
    rw [hsrc]
    dsimp only
    rw [if_neg hne, hpar]
    dsimp only
    rw [hmiss]
    simp only [Bool.false_eq_true, if_false]
    unfold set_state
    rw [hcur]
    dsimp only
    unfold mergeA
    dsimp only [List.foldl]
    refine ⟨_, rfl, ?_, ?_⟩
    · rw [lookupKV_cost_patch _ _ _ (by decide),
        lookupKV_setKV_ne _ _ _ (by decide)]
      exact lookupKV_setKV_self _ _ _
    · rw [lookupKV_cost_patch _ _ _ (by decide)]
      exact lookupKV_setKV_self _ _ _
  obtain ⟨A, hA, hu, hdc⟩ := key
  refine ⟨by rw [hA]; rfl, by rw [hA]; rfl, ?_, ?_, ?_, ?_⟩
  · rw [hA]
    simpa using hu
  · rw [hA]
    simpa using hdc
  · intro st2 hk1 hk2
    unfold fix_utility_sensor
    dsimp only
    cases hs : (lookupKV st2.attributes "source").getD none with
    | none => rfl
    | some s2 =>
      dsimp only
      by_cases hse : s2 = ""
      · rw [if_pos hse]
      · rw [if_neg hse]
        cases hp2 : states s2 with
        | none => rfl
        | some par2 =>
          dsimp only
          rw [hk1, hk2]
          rfl
  · intro st3 h3
    unfold fix_utility_sensor
    dsimp only
    rw [h3]

/-- Shared concrete state store for the C6 theorems: an energy entity whose
source entity exists and carries unit `"kWh"` and device-class `"power"`. -/
def statesC6 : String → Option StateObj := fun s =>
  if s = "sensor.hilo_energy_a" then
    some ⟨"7", [("source", some "sensor.parent")]⟩
  else if s = "sensor.parent" then
    some ⟨"3", [("unit_of_measurement", some "kWh"),
                ("device_class", some "power")]⟩
  else none

/-- Witness for C6 (amended): the patch fires, preserves state `"7"`,
copies unit `"kWh"` and writes device-class `"energy"`. -/
theorem c6_fix_utility_sensor_witness :
    (fix_utility_sensor statesC6 "T" "sensor.hilo_energy_a"
        ⟨"7", [("source", some "sensor.parent")]⟩).map (fun w => w.2.1)
      = some (some "7")
    ∧ (fix_utility_sensor statesC6 "T" "sensor.hilo_energy_a"
        ⟨"7", [("source", some "sensor.parent")]⟩).bind
          (fun w => lookupKV w.2.2 "device_class")
      = some (some "energy") :=
  ⟨(c6_fix_utility_sensor statesC6 "T" "sensor.hilo_energy_a" "sensor.parent"
      ⟨"7", [("source", some "sensor.parent")]⟩
      ⟨"3", [("unit_of_measurement", some "kWh"), ("device_class", some "power")]⟩
      (by decide) (by decide) (by decide) (by decide) (by decide)).2.1,
   (c6_fix_utility_sensor statesC6 "T" "sensor.hilo_energy_a" "sensor.parent"
      ⟨"7", [("source", some "sensor.parent")]⟩
      ⟨"3", [("unit_of_measurement", some "kWh"), ("device_class", some "power")]⟩
      (by decide) (by decide) (by decide) (by decide) (by decide)).2.2.2.1⟩

/-- Counterexample to C6 as stated: the source entity's device-class is
`"power"`, but the patch writes `"energy"` — device-class is hardcoded, not
copied from the source entity's metadata. -/
theorem c6_cex_device_class_not_copied :
    (fix_utility_sensor statesC6 "T" "sensor.hilo_energy_a"
        ⟨"7", [("source", some "sensor.parent")]⟩).bind
          (fun w => lookupKV w.2.2 "device_class")
      = some (some "energy")
    ∧ lookupKV [("unit_of_measurement", some "kWh"),
        ("device_class", some "power")] "device_class" = some (some "power")
    ∧ (some "energy" : Option String) ≠ some "power" :=
  ⟨by decide, by decide, by decide⟩

end Hilo
